import Mathlib

/-!
Shallow embedding of the VC-map dashboard (src/app.py): the dataset loader
(header normalization, coordinate coercion, row dropping), the tag parser,
the coordinate jitterer, and the filter engine, together with theorems
settling the specification claims about them.

Strings are modelled with Lean `String`; the Python `str.split` and
`str.strip` primitives used by the source are embedded as structurally
recursive functions over the character lists so that every definition
evaluates by kernel reduction.  Coordinate arithmetic is modelled over the
rationals; pandas floating-point cells are modelled by the inductive
`PdFloat` which distinguishes NaN, the two infinities, and finite values.
-/

namespace VCMap

/-! ### Python string primitives -/

/-- Whitespace recognised by Python `str.strip`. -/
def isPySpace (c : Char) : Bool :=
  c == ' ' || c == '\t' || c == '\n' || c == '\r' || c == '\x0b' || c == '\x0c'

/-- Python `str.strip`: drop leading and trailing whitespace. -/
def pyStrip (s : String) : String :=
  ⟨((s.data.dropWhile isPySpace).reverse.dropWhile isPySpace).reverse⟩

/-- Accumulating splitter over a character list: cut at every comma. -/
def splitCommaAux : List Char → List Char → List (List Char)
  | [], acc => [acc.reverse]
  | c :: cs, acc =>
      if c == ',' then acc.reverse :: splitCommaAux cs []
      else splitCommaAux cs (c :: acc)

/-- Python `x.split(",")`: split on every comma, keeping empty pieces;
the empty string yields the one-element list containing the empty string. -/
def splitComma (x : String) : List String :=
  (splitCommaAux x.data []).map fun cs => ⟨cs⟩

/-! ### Tag Parser (src/app.py lines 52-53)

Source: df["Stage"].astype(str).apply(lambda x: [s.strip() for s in x.split(",") if s.strip()]) -/

/-- The list comprehension of lines 52-53: split on commas, keep each piece
whose stripped form is non-empty (Python truthiness of a string), and map
the kept pieces to their stripped form. -/
def parseTags (x : String) : List String :=
  (splitComma x).filterMap fun s =>
    if pyStrip s = "" then none else some (pyStrip s)

/-- A raw cell of the Stage/Sector column before `astype(str)`.  A float
NaN cell (the pandas representation of a missing value read from CSV)
stringifies to the literal token `nan`; a Python `None` stringifies to
`None`. -/
inductive TagCell
  | strVal (s : String)
  | nanVal
  | noneVal
deriving DecidableEq, Repr

/-- Model of astype(str) on a single cell. -/
def astypeStr : TagCell → String
  | .strVal s => s
  | .nanVal => "nan"
  | .noneVal => "None"

/-- Whether the raw cell is a null/missing value. -/
def isMissingCell : TagCell → Bool
  | .strVal _ => false
  | .nanVal => true
  | .noneVal => true

/-! ### Dataset Loader: header normalization (src/app.py lines 24-33) -/

/-- Line 24, `df.columns = df.columns.str.strip()`. -/
def stripHeaders (hs : List String) : List String :=
  hs.map pyStrip

/-- The rename mapping of lines 27-33 applied to one header: an exact
match against a dictionary key is replaced, anything else passes through. -/
def renameHeader (h : String) : String :=
  if h = "Name" then "name"
  else if h = "Lat" then "latitude"
  else if h = "Long" then "longitude"
  else if h = "Latitude" then "latitude"
  else if h = "Longitude" then "longitude"
  else h

/-- Lines 27-33, `df.rename(columns={...})` over the whole header row. -/
def renameHeaders (hs : List String) : List String :=
  hs.map renameHeader

/-- The loader header pipeline: strip every header, then rename. -/
def normalizeHeaders (hs : List String) : List String :=
  renameHeaders (stripHeaders hs)

/-! ### Dataset Loader: coordinate coercion (src/app.py lines 41-43) -/

/-- A pandas float64 cell value: NaN, an infinity, or a finite value
(modelled over ℚ). -/
inductive PdFloat
  | nan
  | inf
  | neginf
  | val (q : ℚ)
deriving DecidableEq, Repr

/-- pandas `isna` on one float cell: true exactly for NaN.  Infinities are
not "na" (default `mode.use_inf_as_na = False`), so `dropna` keeps them. -/
def isna : PdFloat → Bool
  | .nan => true
  | _ => false

/-- Whether the cell holds a finite number (neither NaN nor an infinity). -/
def isFinite : PdFloat → Bool
  | .val _ => true
  | _ => false

/-- Parse an optionally signed decimal-digit string into an integer. -/
def digitsToNat : List Char → Option Nat
  | [] => none
  | cs => cs.foldl (fun acc c =>
      match acc with
      | none => none
      | some n => if c.isDigit then some (n * 10 + (c.toNat - 48)) else none)
      (some 0)

/-- Modelled fragment of the pandas numeric string parser used by
`pd.to_numeric`: infinity literals parse to the infinities, integer
literals parse to finite values, and every other string fails to coerce,
which under the coerce error mode becomes NaN.  Decimal fractions and exponents
are omitted; no claim depends on them. -/
def parseNumericStr (s : String) : PdFloat :=
  let t := pyStrip s
  if t = "inf" || t = "Infinity" || t = "+inf" then .inf
  else if t = "-inf" || t = "-Infinity" then .neginf
  else if t = "nan" || t = "NaN" then .nan
  else match t.data with
    | '-' :: rest =>
        match digitsToNat rest with
        | some n => .val (-(n : ℚ))
        | none => .nan
    | cs =>
        match digitsToNat cs with
        | some n => .val (n : ℚ)
        | none => .nan

/-- A raw latitude/longitude cell as it sits in the frame handed to
`pd.to_numeric`: missing (read as NaN), already numeric (pd.read_csv
parses numeric-looking text, including infinity literals, into float64),
or a leftover string in an object-typed column. -/
inductive RawCell
  | missing
  | num (v : PdFloat)
  | str (s : String)
deriving DecidableEq, Repr

/-- Model of pd.to_numeric with errors=coerce on one cell: missing stays NaN,
floats pass through unchanged, strings are parsed with failure coercing to
NaN. -/
def toNumeric : RawCell → PdFloat
  | .missing => .nan
  | .num v => v
  | .str s => parseNumericStr s

/-- One input row restricted to the two coordinate cells (the other
columns do not participate in lines 41-43). -/
structure RawRow where
  lat : RawCell
  lon : RawCell
deriving DecidableEq, Repr

/-- A row after coercion of both coordinates. -/
structure CoordRow where
  lat : PdFloat
  lon : PdFloat
deriving DecidableEq, Repr

/-- Lines 41-42: coerce both coordinate cells of a row. -/
def coerceRow (r : RawRow) : CoordRow :=
  ⟨toNumeric r.lat, toNumeric r.lon⟩

/-- Line 43, `df.dropna(subset=["latitude", "longitude"])`: keep exactly
the rows in which neither coordinate is na. -/
def dropnaCoords (rs : List CoordRow) : List CoordRow :=
  rs.filter fun r => !(isna r.lat) && !(isna r.lon)

/-- Lines 41-43 composed: coerce every row, then drop the na rows. -/
def loadCoords (rs : List RawRow) : List CoordRow :=
  dropnaCoords (rs.map coerceRow)

/-! ### Dataset Loader: schema validation (src/app.py lines 36-38) -/

/-- The fatal loader error of lines 36-38 (st.error followed by st.stop);
the spec names it SchemaError.  An error result carries zero records and
halts the session: no table or map is rendered past it. -/
inductive SchemaError
  | missingCoordColumn
deriving DecidableEq, Repr

/-- An input table: its header row plus its rows restricted to the
coordinate cells. -/
structure RawTable where
  headers : List String
  rows : List RawRow
deriving Repr

/-- The loader through line 43: normalize the headers, fail with
SchemaError when latitude or longitude is absent post-normalization
(lines 36-38), otherwise coerce coordinates and drop invalid rows. -/
def loadTable (t : RawTable) : Except SchemaError (List CoordRow) :=
  let hs := normalizeHeaders t.headers
  if hs.contains "latitude" && hs.contains "longitude" then
    .ok (loadCoords t.rows)
  else
    .error .missingCoordColumn

/-! ### Coordinate Jitterer (src/app.py lines 46-47)

`df["lat_jitter"] = df["latitude"] + np.random.uniform(-0.002, 0.002, len(df))`
The uniform draw is modelled as an arbitrary rational argument; the
bounds on the draw become hypotheses of the jitter theorems. -/

/-- Line 46 for one row: the jittered latitude. -/
def lat_jitter (latitude u : ℚ) : ℚ := latitude + u

/-- Line 47 for one row: the jittered longitude. -/
def lon_jitter (longitude u : ℚ) : ℚ := longitude + u

/-! ### Filter Engine (src/app.py lines 78-85) -/

/-- One in-memory firm record after the load/parse/jitter pipeline. -/
structure Firm where
  name : String
  latitude : ℚ
  longitude : ℚ
  latJitter : ℚ
  lonJitter : ℚ
  sectors : List String
  stages : List String
deriving DecidableEq, Repr

/-- The outcome of the filtering block: the selected rows plus whether the
empty-selection warning of line 79 was surfaced.  The block never halts
the session; an outcome is always produced and processing continues. -/
structure FilterOutcome where
  warned : Bool
  result : List Firm
deriving DecidableEq, Repr

/-- Lines 78-85: with either selection empty (Python falsiness of a list)
surface a warning and produce the empty frame, otherwise keep exactly the
rows with at least one selected sector tag and at least one selected
stage tag. -/
def filtered_df (df : List Firm) (selected_sectors selected_stages : List String) :
    FilterOutcome :=
  if selected_sectors.isEmpty || selected_stages.isEmpty then
    ⟨true, []⟩
  else
    ⟨false, df.filter fun r =>
      (r.sectors.any fun s => selected_sectors.contains s) &&
      (r.stages.any fun s => selected_stages.contains s)⟩

/-- Record equality ignoring the two jitter columns, used to state that
jitter never influences filtering. -/
def eraseJitter (r : Firm) : Firm :=
  { r with latJitter := 0, lonJitter := 0 }

/-! ### Spec-side definitions

The following two definitions are written from the words of the spec, not
from the source, and are compared against the source-derived pipeline by
refinement theorems. -/

/-- Spec wording for the Tag Parser: split on commas, trim each piece,
then discard the pieces that became empty, keeping order and duplicates. -/
def specParseTags (x : String) : List String :=
  ((splitComma x).map pyStrip).filter fun t => !(t == "")

/-- Spec wording for header normalization: trim the header, then rename
exactly Name, Lat, Latitude, Long and Longitude to their canonical forms;
every other header passes through unchanged. -/
def specNormalizeHeader (h : String) : String :=
  if pyStrip h = "Name" then "name"
  else if pyStrip h = "Lat" ∨ pyStrip h = "Latitude" then "latitude"
  else if pyStrip h = "Long" ∨ pyStrip h = "Longitude" then "longitude"
  else pyStrip h

/-! ### Concrete records used by the witnesses -/

/-- The record of the spec exclusion example: sectors Fintech and SaaS,
stage Series A. -/
def acmeFirm : Firm :=
  ⟨"Acme VC", 37.77, -122.41, 37.77, -122.41, ["Fintech", "SaaS"], ["Series A"]⟩

/-- A record whose parsed sector list is empty. -/
def orphanFirm : Firm :=
  ⟨"Orphan", 1, 2, 1, 2, [], ["Seed"]⟩

/-- A matching record with one choice of jitter columns. -/
def firmJ1 : Firm := ⟨"J", 1, 2, 3, 4, ["Fintech"], ["Seed"]⟩

/-- The same record with different jitter columns. -/
def firmJ2 : Firm := ⟨"J", 1, 2, 5, 6, ["Fintech"], ["Seed"]⟩

/-- An input row whose latitude cell is the float infinity that
pd.read_csv produces from the text inf in a numeric column, and whose
longitude is an ordinary finite value. -/
def infRow : RawRow := ⟨RawCell.num PdFloat.inf, RawCell.num (PdFloat.val 0)⟩

/-! ### Helper lemmas -/

/-- A pandas cell is not na exactly when it is not NaN. -/
theorem isna_eq_false_iff (v : PdFloat) : isna v = false ↔ v ≠ PdFloat.nan := by
  cases v <;> simp [isna]

/-- The filterMap of the source list comprehension agrees with the
map-then-filter phrasing of the spec, piecewise over any piece list. -/
theorem filterMap_strip_eq (l : List String) :
    (l.filterMap fun s => if pyStrip s = "" then none else some (pyStrip s)) =
      (l.map pyStrip).filter fun t => !(t == "") := by
  induction l with
  | nil => rfl
  | cons a l ih =>
      by_cases h : pyStrip a = ""
      · simp [h, ih]
      · simp [h, ih]

/-- The source rename of a stripped header agrees with the spec wording. -/
theorem renameHeader_strip_eq_spec (h : String) :
    renameHeader (pyStrip h) = specNormalizeHeader h := by
  unfold renameHeader specNormalizeHeader
  split_ifs <;> first | rfl | tauto | simp_all

/-- Mapping away the jitter columns commutes with filtering by any
predicate that ignores them. -/
theorem filter_eraseJitter_comm (p : Firm → Bool)
    (hp : ∀ r, p (eraseJitter r) = p r) (l : List Firm) :
    (l.filter p).map eraseJitter = (l.map eraseJitter).filter p := by
  induction l with
  | nil => rfl
  | cons a l ih => by_cases h : p a <;> simp [hp, h, ih]

/-! ### Claim theorems -/

/-- C1: with both selection sets non-empty, the Filter Engine returns
exactly the records whose sector list contains at least one selected
sector tag and whose stage list contains at least one selected stage tag
(OR within each dimension, AND across the two dimensions). -/
theorem filter_engine_and_or_semantics (df : List Firm)
    (selected_sectors selected_stages : List String)
    (hsec : selected_sectors ≠ []) (hstg : selected_stages ≠ []) (r : Firm) :
    r ∈ (filtered_df df selected_sectors selected_stages).result ↔
      r ∈ df ∧ (∃ s ∈ r.sectors, s ∈ selected_sectors) ∧
        ∃ s ∈ r.stages, s ∈ selected_stages := by
  unfold filtered_df
  rw [if_neg (by simp [hsec, hstg])]
  simp [List.mem_filter, List.any_eq_true, and_assoc]

/-- Witness for C1, the exclusion example of the spec: the record with
sectors Fintech and SaaS but stage Series A is excluded under the
selections Fintech and Seed. -/
theorem filter_engine_and_or_semantics_witness :
    acmeFirm ∉ (filtered_df [acmeFirm] ["Fintech"] ["Seed"]).result := by
  intro hmem
  have h := (filter_engine_and_or_semantics [acmeFirm] ["Fintech"] ["Seed"]
      (by decide) (by decide) acmeFirm).mp hmem
  exact absurd h.2.2 (by decide)

/-- C2: with either selection set empty, the Filter Engine produces the
empty result for every dataset, and the non-fatal warning of line 79 is
surfaced; the block returns an outcome, so processing continues. -/
theorem empty_selection_returns_empty (df : List Firm)
    (selected_sectors selected_stages : List String)
    (h : selected_sectors = [] ∨ selected_stages = []) :
    filtered_df df selected_sectors selected_stages = ⟨true, []⟩ := by
  unfold filtered_df
  rcases h with h | h <;> simp [h]

/-- Witness for C2: an empty sector selection over a non-empty dataset
yields the warned empty outcome. -/
theorem empty_selection_returns_empty_witness :
    filtered_df [acmeFirm] [] ["Seed"] = ⟨true, []⟩ :=
  empty_selection_returns_empty [acmeFirm] [] ["Seed"] (Or.inl rfl)

/-- C3: the Tag Parser equals the spec phrasing (split on commas, trim,
discard empties, keep order and duplicates) on every input, and the two
concrete examples of the spec evaluate as stated. -/
theorem tag_parser_spec_refinement :
    (∀ x : String, parseTags x = specParseTags x) ∧
      parseTags "Seed, Series A,  Series A" = ["Seed", "Series A", "Series A"] ∧
      parseTags "" = [] := by
  refine ⟨fun x => ?_, by decide, by decide⟩
  unfold parseTags specParseTags
  exact filterMap_strip_eq (splitComma x)

/-- C4: a null/missing tag cell stringifies to a comma-free non-blank
placeholder token, and the Tag Parser turns it into the one-element list
holding that literal token rather than an empty list. -/
theorem missing_tag_parses_to_literal_token (c : TagCell)
    (h : isMissingCell c = true) :
    parseTags (astypeStr c) = [astypeStr c] ∧ astypeStr c ≠ "" := by
  cases c with
  | strVal s => simp [isMissingCell] at h
  | nanVal => exact ⟨by decide, by decide⟩
  | noneVal => exact ⟨by decide, by decide⟩

/-- Witness for C4: the float NaN cell stringifies to the token nan and
parses to the one-element list containing it. -/
theorem missing_tag_parses_to_literal_token_witness :
    parseTags (astypeStr TagCell.nanVal) = [astypeStr TagCell.nanVal] ∧
      astypeStr TagCell.nanVal ≠ "" :=
  missing_tag_parses_to_literal_token TagCell.nanVal rfl

/-- Counterexample for C5: a row whose latitude cell holds the float
infinity (as pd.read_csv yields for the text inf) survives lines 41-43
with an infinite, hence non-finite, latitude, so surviving rows are not
all finite as the claim states. -/
theorem loader_keeps_infinite_coordinate :
    loadCoords [infRow] = [⟨PdFloat.inf, PdFloat.val 0⟩] ∧
      isFinite PdFloat.inf = false :=
  ⟨rfl, rfl⟩

/-- C5 as amended: the surviving rows are exactly the coercions of input
rows in which neither coordinate is NaN; in particular every row whose
latitude or longitude is missing or fails numeric coercion (both coerce
to NaN) is discarded, and no surviving row has a NaN coordinate — but an
infinite coordinate can survive. -/
theorem loader_survivor_characterization (rows : List RawRow) (r : CoordRow) :
    r ∈ loadCoords rows ↔
      (∃ raw ∈ rows, coerceRow raw = r) ∧
        r.lat ≠ PdFloat.nan ∧ r.lon ≠ PdFloat.nan := by
  unfold loadCoords dropnaCoords
  simp only [List.mem_filter, List.mem_map, Bool.and_eq_true, Bool.not_eq_true',
    isna_eq_false_iff]

/-- C6: a table lacking a latitude-resolvable or longitude-resolvable
column after header normalization makes the loader fail with SchemaError;
the error outcome carries zero records and the session halts. -/
theorem schema_error_on_missing_coordinate_column (t : RawTable)
    (h : "latitude" ∉ normalizeHeaders t.headers ∨
         "longitude" ∉ normalizeHeaders t.headers) :
    loadTable t = .error SchemaError.missingCoordColumn := by
  unfold loadTable
  rw [if_neg]
  simp only [Bool.and_eq_true, not_and_or, Bool.not_eq_true]
  rcases h with h | h
  · left
    simp [h]
  · right
    simp [h]

/-- Witness for C6: headers Name and Lat normalize without a longitude
column, so loading fails with SchemaError. -/
theorem schema_error_on_missing_coordinate_column_witness :
    loadTable ⟨["Name", "Lat"], []⟩ = .error SchemaError.missingCoordColumn :=
  schema_error_on_missing_coordinate_column ⟨["Name", "Lat"], []⟩
    (Or.inr (by decide))

/-- C7: adding a uniform draw bounded by 0.002 in absolute value keeps
each jittered coordinate within 0.002 of the true coordinate, for both
axes independently. -/
theorem jitter_within_bounds (latitude longitude u v : ℚ)
    (hu1 : -0.002 ≤ u) (hu2 : u ≤ 0.002)
    (hv1 : -0.002 ≤ v) (hv2 : v ≤ 0.002) :
    (latitude - 0.002 ≤ lat_jitter latitude u ∧
      lat_jitter latitude u ≤ latitude + 0.002) ∧
    (longitude - 0.002 ≤ lon_jitter longitude v ∧
      lon_jitter longitude v ≤ longitude + 0.002) := by
  unfold lat_jitter lon_jitter
  refine ⟨⟨?_, ?_⟩, ⟨?_, ?_⟩⟩ <;> linarith

/-- Witness for C7 at the coordinates of the spec example with concrete
draws of one thousandth on each axis. -/
theorem jitter_within_bounds_witness :
    ((37.77 : ℚ) - 0.002 ≤ lat_jitter 37.77 (1 / 1000) ∧
      lat_jitter 37.77 (1 / 1000) ≤ 37.77 + 0.002) ∧
    ((-122.41 : ℚ) - 0.002 ≤ lon_jitter (-122.41) (-(1 / 1000)) ∧
      lon_jitter (-122.41) (-(1 / 1000)) ≤ -122.41 + 0.002) :=
  jitter_within_bounds 37.77 (-122.41) (1 / 1000) (-(1 / 1000))
    (by norm_num) (by norm_num) (by norm_num) (by norm_num)

/-- C9: the jitter columns never influence the Filter Engine: two
datasets equal up to their jitter columns produce, for the same selection
sets, filter results equal up to their jitter columns — the same records
are selected. -/
theorem jitter_never_influences_filtering (df1 df2 : List Firm)
    (selected_sectors selected_stages : List String)
    (h : df1.map eraseJitter = df2.map eraseJitter) :
    (filtered_df df1 selected_sectors selected_stages).result.map eraseJitter =
      (filtered_df df2 selected_sectors selected_stages).result.map eraseJitter := by
  unfold filtered_df
  by_cases hc : (selected_sectors.isEmpty || selected_stages.isEmpty) = true
  · rw [if_pos hc, if_pos hc]
  · rw [if_neg hc, if_neg hc]
    have e1 := filter_eraseJitter_comm
      (fun r => (r.sectors.any fun s => selected_sectors.contains s) &&
        (r.stages.any fun s => selected_stages.contains s)) (fun r => rfl) df1
    have e2 := filter_eraseJitter_comm
      (fun r => (r.sectors.any fun s => selected_sectors.contains s) &&
        (r.stages.any fun s => selected_stages.contains s)) (fun r => rfl) df2
    show ((df1.filter _).map eraseJitter) = ((df2.filter _).map eraseJitter)
    rw [e1, e2, h]

/-- Witness for C9: two singleton datasets holding the same record under
different jitter draws select the same record. -/
theorem jitter_never_influences_filtering_witness :
    (filtered_df [firmJ1] ["Fintech"] ["Seed"]).result.map eraseJitter =
      (filtered_df [firmJ2] ["Fintech"] ["Seed"]).result.map eraseJitter :=
  jitter_never_influences_filtering [firmJ1] [firmJ2] ["Fintech"] ["Seed"] rfl

/-- C10: a record whose parsed sector list or parsed stage list is empty
is excluded by the Filter Engine under every pair of selection sets,
including the default selection of all existing tags. -/
theorem empty_tag_list_never_selected (df : List Firm)
    (selected_sectors selected_stages : List String) (r : Firm)
    (h : r.sectors = [] ∨ r.stages = []) :
    r ∉ (filtered_df df selected_sectors selected_stages).result := by
  unfold filtered_df
  intro hmem
  by_cases hc : (selected_sectors.isEmpty || selected_stages.isEmpty) = true
  · rw [if_pos hc] at hmem
    exact absurd hmem (List.not_mem_nil r)
  · rw [if_neg hc] at hmem
    have hp := (List.mem_filter.mp hmem).2
    rcases h with h | h <;> simp [h] at hp

/-- Witness for C10: a record with an empty sector list is excluded even
though its stage matches the selection. -/
theorem empty_tag_list_never_selected_witness :
    orphanFirm ∉ (filtered_df [orphanFirm] ["Fintech"] ["Seed"]).result :=
  empty_tag_list_never_selected [orphanFirm] ["Fintech"] ["Seed"] orphanFirm
    (Or.inl rfl)

/-- C8: the loader header pipeline (strip every header, then rename)
equals, header by header, the spec description: trim, rename exactly the
five known aliases, and pass every other header through unchanged. -/
theorem header_normalization_matches_spec (hs : List String) :
    normalizeHeaders hs = hs.map specNormalizeHeader := by
  induction hs with
  | nil => rfl
  | cons h hs ih =>
      show renameHeader (pyStrip h) :: normalizeHeaders hs = _
      rw [List.map_cons, renameHeader_strip_eq_spec, ih]

end VCMap
